import Mathlib

/-!
Shallow embedding of the approved shell-command execution pipeline of
`ai/dev_agent.py` and `ai/qa_agent.py` (repository `levelup-platform`).

The two Python files each define a `require_approval` coroutine (the approval
gate) and a `ShellExecutor` class whose `__call__` runs an approved batch of
shell commands sequentially, with timeout handling.  The embedding makes the
ambient environment explicit as parameters:

* the value of the `SHELL_AUTO_APPROVE` environment variable
  (`Option String`: `none` when the variable is unset);
* the line the operator would type at the `input()` prompt;
* the observable behaviour of each spawned child process (`ProcBehavior`),
  indexed by the position of its command in the batch.

Side effects are reified: the lines printed by the gate, whether `input()`
was consulted, and the list of commands actually handed to
`asyncio.create_subprocess_shell` are all recorded in the returned data.
-/

/-- Observable behaviour of the child process spawned for one command.

`timesOutUnder t` says whether `asyncio.wait_for(proc.communicate(), t)`
raises `TimeoutError` when called with the bound `t` seconds (with bound
`None`, `wait_for` never raises `TimeoutError`; that case is handled by the
executor model directly).  The remaining fields are indexed by the `timed_out`
flag: when it is `true` they describe what is observed after
`proc.kill(); await proc.communicate()` (the drained streams and the killed
process's returncode), when `false` what a normal `communicate()` reports.
The `stdoutText`/`stderrText` fields hold the captured streams already decoded
by the host codec (`bytes.decode("utf-8", errors="ignore")`, a total function
of the raw bytes; the decoding itself is a Python built-in, external to the
logic under verification). -/
structure ProcBehavior where
  timesOutUnder : ℚ → Bool
  stdoutText : Bool → String
  stderrText : Bool → String
  returncode : Bool → Option Int

/-- `ShellCallOutcome(type=..., exit_code=...)` from the `agents` package, as
constructed by both executors: `type` is `"timeout"` or `"exit"`. -/
structure ShellCallOutcome where
  type : String
  exit_code : Option Int

/-- `ShellCommandOutput(command=..., stdout=..., stderr=..., outcome=...)`. -/
structure ShellCommandOutput where
  command : String
  stdout : String
  stderr : String
  outcome : ShellCallOutcome

/-- `ShellResult(output=..., provider_data={"working_directory": str(cwd)})`;
the one-key `provider_data` dict is flattened into its single value. -/
structure ShellResult where
  output : List ShellCommandOutput
  provider_data_working_directory : String

/-- Result of one call to `require_approval`: the lines written to standard
output (the header, one line per pending command, and the `input()` prompt),
whether the call blocked on `input()`, and whether it returned normally
(`Except.ok`) or raised `RuntimeError` (`Except.error` with the message). -/
structure GateResult where
  printed : List String
  readsOperatorInput : Bool
  result : Except String Unit

/-- Whitespace class of Python's `str.strip()` (ASCII part). -/
def pyIsSpace (c : Char) : Bool :=
  c = ' ' || c = '\t' || c = '\n' || c = '\r' || c = '\x0b' || c = '\x0c'

/-- Python `s.strip()`: remove leading and trailing whitespace. -/
def pyStrip (s : String) : String :=
  String.mk (((s.data.dropWhile pyIsSpace).reverse.dropWhile pyIsSpace).reverse)

/-- Python `s.lower()` (ASCII letters). -/
def pyLower (s : String) : String :=
  String.mk (s.data.map Char.toLower)

/-- Python `s.strip().lower()`, the normalisation both gates apply to the
operator's response before comparing it with `{"y", "yes"}`. -/
def pyStripLower (s : String) : String :=
  pyLower (pyStrip s)

/-- The condition claimed by the spec for approval: the raw input is exactly
`"y"` or `"yes"` up to letter case (no whitespace allowed). -/
def exactYesAnyCase (s : String) : Bool :=
  pyLower s = "y" || pyLower s = "yes"

namespace DevAgent

/-- `require_approval(commands)` of `ai/dev_agent.py`.
`autoApproveFlag` is `os.environ.get("SHELL_AUTO_APPROVE")` and
`operatorResponse` is the line `input()` would return. -/
def require_approval (autoApproveFlag : Option String) (commands : List String)
    (operatorResponse : String) : GateResult :=
  if autoApproveFlag = some "1" then
    { printed := [], readsOperatorInput := false, result := Except.ok () }
  else
    -- `print("\nShell command approval required:")`, then
    -- `print("  ", c)` for each command (`print` joins its arguments with a
    -- space), then the `input("Proceed? [y/N] ")` prompt.
    let printed := "\nShell command approval required:" ::
      (commands.map (fun c => "   " ++ c) ++ ["Proceed? [y/N] "])
    let resp := pyStripLower operatorResponse
    if resp = "y" ∨ resp = "yes" then
      { printed := printed, readsOperatorInput := true, result := Except.ok () }
    else
      { printed := printed, readsOperatorInput := true,
        result := Except.error "Shell command execution rejected by user." }

/-- `timeout = (action.timeout_ms or 0) / 1000 or None`.  The float
`ms / 1000` is falsy (`0.0`) exactly when the millisecond count is `0` or
absent (a positive count divided by 1000 is never exactly `0.0`), so the
guard is taken on the millisecond count. -/
def pythonTimeout (timeout_ms : Option Nat) : Option ℚ :=
  if timeout_ms.getD 0 = 0 then none
  else some ((timeout_ms.getD 0 : ℚ) / 1000)

/-- Whether the `await asyncio.wait_for(proc.communicate(), timeout=bound)`
call raises `TimeoutError`: never when the bound is `None`, and as the
process behaviour dictates when a bound is given. -/
def timedOut (bound : Option ℚ) (b : ProcBehavior) : Bool :=
  match bound with
  | none => false
  | some t => b.timesOutUnder t

/-- One iteration of the command loop, after the process has been spawned:
the `try`/`except asyncio.TimeoutError` block (with `proc.kill()` and the
drain in the handler), the permissive decode of both streams, and the
construction of the `ShellCallOutcome` and `ShellCommandOutput`.  Note that
`exit_code = getattr(proc, "returncode", None)` is evaluated on both paths,
so the timeout path records the killed process's returncode. -/
def mkOutput (bound : Option ℚ) (command : String) (b : ProcBehavior) :
    ShellCommandOutput :=
  let timed_out := timedOut bound b
  { command := command
    stdout := b.stdoutText timed_out
    stderr := b.stderrText timed_out
    outcome := { type := if timed_out then "timeout" else "exit"
                 exit_code := b.returncode timed_out } }

/-- The `for command in action.commands:` loop: each iteration spawns the
command's process (behaviour `bh i` for the command at position `i`), records
one `ShellCommandOutput`, and `break`s after a timeout. -/
def execLoop (bh : Nat → ProcBehavior) (bound : Option ℚ) :
    List String → Nat → List ShellCommandOutput
  | [], _ => []
  | command :: rest, i =>
    let out := mkOutput bound command (bh i)
    if timedOut bound (bh i) then [out]
    else out :: execLoop bh bound rest (i + 1)

/-- Everything observable about one `ShellExecutor.__call__`: the gate's
side effects, the commands handed to `asyncio.create_subprocess_shell` (in
order), and the returned `ShellResult` or the propagated error. -/
structure CallTrace where
  gate : GateResult
  spawned : List String
  result : Except String ShellResult

/-- `ShellExecutor.__call__` of `ai/dev_agent.py`.  The gate runs once for
the whole batch; a rejection propagates before any process is spawned.  Each
loop iteration spawns exactly one process and appends exactly one output, so
the spawned commands are the `command` fields of the outputs.  (The source
recomputes the timeout expression inside the loop; its value does not depend
on the iteration, so it is computed once here.) -/
def call (cwd : String) (autoApproveFlag : Option String)
    (operatorResponse : String) (bh : Nat → ProcBehavior)
    (commands : List String) (timeout_ms : Option Nat) : CallTrace :=
  let gate := require_approval autoApproveFlag commands operatorResponse
  match gate.result with
  | Except.error e => { gate := gate, spawned := [], result := Except.error e }
  | Except.ok _ =>
    let outputs := execLoop bh (pythonTimeout timeout_ms) commands 0
    { gate := gate
      spawned := outputs.map (fun o => o.command)
      result := Except.ok { output := outputs
                            provider_data_working_directory := cwd } }

end DevAgent

namespace QaAgent

/-- `require_approval(commands)` of `ai/qa_agent.py`: identical to the dev
agent's gate except for the prompt text (`"[QA] ..."` header and
`print("   ", c)` per command). -/
def require_approval (autoApproveFlag : Option String) (commands : List String)
    (operatorResponse : String) : GateResult :=
  if autoApproveFlag = some "1" then
    { printed := [], readsOperatorInput := false, result := Except.ok () }
  else
    let printed := "\n[QA] Shell command approval required:" ::
      (commands.map (fun c => "    " ++ c) ++ ["Proceed? [y/N] "])
    let resp := pyStripLower operatorResponse
    if resp = "y" ∨ resp = "yes" then
      { printed := printed, readsOperatorInput := true, result := Except.ok () }
    else
      { printed := printed, readsOperatorInput := true,
        result := Except.error "Shell command execution rejected by user." }

/-- `timeout = (action.timeout_ms or 0) / 1000 or None` (same line as in
`ai/dev_agent.py`). -/
def pythonTimeout (timeout_ms : Option Nat) : Option ℚ :=
  if timeout_ms.getD 0 = 0 then none
  else some ((timeout_ms.getD 0 : ℚ) / 1000)

/-- Timeout test of `ai/qa_agent.py`'s executor (same as the dev agent's). -/
def timedOut (bound : Option ℚ) (b : ProcBehavior) : Bool :=
  match bound with
  | none => false
  | some t => b.timesOutUnder t

/-- Loop body of `ai/qa_agent.py`'s executor (same lines as the dev
agent's). -/
def mkOutput (bound : Option ℚ) (command : String) (b : ProcBehavior) :
    ShellCommandOutput :=
  let timed_out := timedOut bound b
  { command := command
    stdout := b.stdoutText timed_out
    stderr := b.stderrText timed_out
    outcome := { type := if timed_out then "timeout" else "exit"
                 exit_code := b.returncode timed_out } }

/-- Command loop of `ai/qa_agent.py`'s executor. -/
def execLoop (bh : Nat → ProcBehavior) (bound : Option ℚ) :
    List String → Nat → List ShellCommandOutput
  | [], _ => []
  | command :: rest, i =>
    let out := mkOutput bound command (bh i)
    if timedOut bound (bh i) then [out]
    else out :: execLoop bh bound rest (i + 1)

/-- `ShellExecutor.__call__` of `ai/qa_agent.py`. -/
def call (cwd : String) (autoApproveFlag : Option String)
    (operatorResponse : String) (bh : Nat → ProcBehavior)
    (commands : List String) (timeout_ms : Option Nat) : DevAgent.CallTrace :=
  let gate := require_approval autoApproveFlag commands operatorResponse
  match gate.result with
  | Except.error e => { gate := gate, spawned := [], result := Except.error e }
  | Except.ok _ =>
    let outputs := execLoop bh (pythonTimeout timeout_ms) commands 0
    { gate := gate
      spawned := outputs.map (fun o => o.command)
      result := Except.ok { output := outputs
                            provider_data_working_directory := cwd } }

end QaAgent

/-- Spec-side measuring function: position of the first command (counting
from the position argument) whose process would hit the timeout bound. -/
def firstTimeoutAt (bh : Nat → ProcBehavior) (bound : Option ℚ) :
    Nat → List String → Option Nat
  | _, [] => none
  | k, _ :: rest =>
    if (match bound with | none => false | some t => (bh k).timesOutUnder t) then
      some 0
    else (firstTimeoutAt bh bound (k + 1) rest).map (· + 1)

/-- Spec-side count: number of commands executed before and including the
first timeout, or the whole batch when no command times out. -/
def countUpToFirstTimeout (bh : Nat → ProcBehavior) (bound : Option ℚ)
    (cmds : List String) : Nat :=
  match firstTimeoutAt bh bound 0 cmds with
  | some i => i + 1
  | none => cmds.length

/-- A process that hits any finite timeout bound; after the kill it reports
returncode `-9` (`SIGKILL`) and empty drained streams. -/
def alwaysTimesOut : ProcBehavior :=
  { timesOutUnder := fun _ => true
    stdoutText := fun _ => ""
    stderrText := fun _ => ""
    returncode := fun _ => some (-9) }

/-- A process that exits promptly with code `0` and empty streams. -/
def cleanExit : ProcBehavior :=
  { timesOutUnder := fun _ => false
    stdoutText := fun _ => ""
    stderrText := fun _ => ""
    returncode := fun _ => some 0 }

/-- Batch behaviour for the three-command scenario: the second command hangs,
the others exit cleanly. -/
def secondHangs : Nat → ProcBehavior :=
  fun i => if i = 1 then alwaysTimesOut else cleanExit

/-- The `ShellResult` produced for `["sleep 5"]` with a 100 ms timeout under
`alwaysTimesOut`: one output, tagged `timeout`, carrying exit code `-9`. -/
def timeoutWitnessResult : ShellResult :=
  { output := [ { command := "sleep 5", stdout := "", stderr := ""
                  outcome := { type := "timeout", exit_code := some (-9) } } ]
    provider_data_working_directory := "/repo" }

/-- The `ShellResult` produced for the three-command scenario with a 100 ms
timeout under `secondHangs`: two outputs, the third command never runs. -/
def secondHangsResult : ShellResult :=
  { output := [ { command := "echo one", stdout := "", stderr := ""
                  outcome := { type := "exit", exit_code := some 0 } },
                { command := "sleep 5", stdout := "", stderr := ""
                  outcome := { type := "timeout", exit_code := some (-9) } } ]
    provider_data_working_directory := "/repo" }


/-! ### Helper lemmas about the dev agent's executor -/

theorem DevAgent.execLoop_cons (bh : Nat → ProcBehavior) (bound : Option ℚ)
    (c : String) (rest : List String) (i : Nat) :
    DevAgent.execLoop bh bound (c :: rest) i =
      if DevAgent.timedOut bound (bh i) then [DevAgent.mkOutput bound c (bh i)]
      else DevAgent.mkOutput bound c (bh i) ::
        DevAgent.execLoop bh bound rest (i + 1) := rfl

theorem DevAgent.mkOutput_command (bound : Option ℚ) (c : String)
    (b : ProcBehavior) : (DevAgent.mkOutput bound c b).command = c := rfl

theorem firstTimeoutAt_cons (bh : Nat → ProcBehavior) (bound : Option ℚ)
    (k : Nat) (c : String) (rest : List String) :
    firstTimeoutAt bh bound k (c :: rest) =
      if DevAgent.timedOut bound (bh k) then some 0
      else (firstTimeoutAt bh bound (k + 1) rest).map (· + 1) := rfl

theorem DevAgent.execLoop_length (bh : Nat → ProcBehavior) (bound : Option ℚ) :
    ∀ (cmds : List String) (k : Nat),
      (DevAgent.execLoop bh bound cmds k).length =
        match firstTimeoutAt bh bound k cmds with
        | some i => i + 1
        | none => cmds.length := by
  intro cmds
  induction cmds with
  | nil => intro k; rfl
  | cons c rest ih =>
    intro k
    rw [DevAgent.execLoop_cons, firstTimeoutAt_cons]
    cases h : DevAgent.timedOut bound (bh k)
    · cases hf : firstTimeoutAt bh bound (k + 1) rest <;>
        simp [h, ih (k + 1), hf]
    · simp [h]

theorem DevAgent.execLoop_map_command (bh : Nat → ProcBehavior)
    (bound : Option ℚ) :
    ∀ (cmds : List String) (k : Nat),
      (DevAgent.execLoop bh bound cmds k).map (fun o => o.command) =
        cmds.take (DevAgent.execLoop bh bound cmds k).length := by
  intro cmds
  induction cmds with
  | nil => intro k; rfl
  | cons c rest ih =>
    intro k
    rw [DevAgent.execLoop_cons]
    cases h : DevAgent.timedOut bound (bh k)
    · simp [h, ih (k + 1), DevAgent.mkOutput_command]
    · simp [h, DevAgent.mkOutput_command]

theorem DevAgent.execLoop_get? (bh : Nat → ProcBehavior) (bound : Option ℚ) :
    ∀ (cmds : List String) (k i : Nat) (o : ShellCommandOutput),
      (DevAgent.execLoop bh bound cmds k).get? i = some o →
        ∃ c, cmds.get? i = some c ∧
          o = DevAgent.mkOutput bound c (bh (k + i)) := by
  intro cmds
  induction cmds with
  | nil => intro k i o h; simp [DevAgent.execLoop] at h
  | cons c rest ih =>
    intro k i o h
    rw [DevAgent.execLoop_cons] at h
    cases ht : DevAgent.timedOut bound (bh k) <;> rw [ht] at h
    · simp only [Bool.false_eq_true, if_false] at h
      cases i with
      | zero =>
        simp only [List.get?, Option.some.injEq] at h
        exact ⟨c, rfl, by rw [Nat.add_zero, ← h]⟩
      | succ j =>
        simp only [List.get?] at h
        obtain ⟨c', hc', ho⟩ := ih (k + 1) j o h
        refine ⟨c', hc', ?_⟩
        have hk : k + (j + 1) = k + 1 + j := by omega
        rw [hk]
        exact ho
    · simp only [if_pos rfl] at h
      cases i with
      | zero =>
        simp only [List.get?, Option.some.injEq] at h
        exact ⟨c, rfl, by rw [Nat.add_zero, ← h]⟩
      | succ j =>
        simp [List.get?] at h

theorem DevAgent.call_of_error (cwd : String) (flag : Option String)
    (resp : String) (bh : Nat → ProcBehavior) (commands : List String)
    (tms : Option Nat) (e : String)
    (hg : (DevAgent.require_approval flag commands resp).result =
      Except.error e) :
    DevAgent.call cwd flag resp bh commands tms =
      { gate := DevAgent.require_approval flag commands resp
        spawned := []
        result := Except.error e } := by
  unfold DevAgent.call
  dsimp only
  rw [hg]

theorem DevAgent.call_of_ok (cwd : String) (flag : Option String)
    (resp : String) (bh : Nat → ProcBehavior) (commands : List String)
    (tms : Option Nat)
    (hg : (DevAgent.require_approval flag commands resp).result =
      Except.ok ()) :
    DevAgent.call cwd flag resp bh commands tms =
      { gate := DevAgent.require_approval flag commands resp
        spawned := (DevAgent.execLoop bh (DevAgent.pythonTimeout tms)
          commands 0).map (fun o => o.command)
        result := Except.ok
          { output := DevAgent.execLoop bh (DevAgent.pythonTimeout tms)
              commands 0
            provider_data_working_directory := cwd } } := by
  unfold DevAgent.call
  dsimp only
  rw [hg]

/-! ### Helper lemmas about the QA agent's executor, and its agreement with
the dev agent's -/

theorem qa_execLoop_cons (bh : Nat → ProcBehavior) (bound : Option ℚ)
    (c : String) (rest : List String) (i : Nat) :
    QaAgent.execLoop bh bound (c :: rest) i =
      if QaAgent.timedOut bound (bh i) then [QaAgent.mkOutput bound c (bh i)]
      else QaAgent.mkOutput bound c (bh i) ::
        QaAgent.execLoop bh bound rest (i + 1) := rfl

theorem qa_call_of_error (cwd : String) (flag : Option String)
    (resp : String) (bh : Nat → ProcBehavior) (commands : List String)
    (tms : Option Nat) (e : String)
    (hg : (QaAgent.require_approval flag commands resp).result =
      Except.error e) :
    QaAgent.call cwd flag resp bh commands tms =
      { gate := QaAgent.require_approval flag commands resp
        spawned := []
        result := Except.error e } := by
  unfold QaAgent.call
  dsimp only
  rw [hg]

theorem qa_call_of_ok (cwd : String) (flag : Option String)
    (resp : String) (bh : Nat → ProcBehavior) (commands : List String)
    (tms : Option Nat)
    (hg : (QaAgent.require_approval flag commands resp).result =
      Except.ok ()) :
    QaAgent.call cwd flag resp bh commands tms =
      { gate := QaAgent.require_approval flag commands resp
        spawned := (QaAgent.execLoop bh (QaAgent.pythonTimeout tms)
          commands 0).map (fun o => o.command)
        result := Except.ok
          { output := QaAgent.execLoop bh (QaAgent.pythonTimeout tms)
              commands 0
            provider_data_working_directory := cwd } } := by
  unfold QaAgent.call
  dsimp only
  rw [hg]

theorem qa_timedOut_eq (bound : Option ℚ) (b : ProcBehavior) :
    QaAgent.timedOut bound b = DevAgent.timedOut bound b := rfl

theorem qa_mkOutput_eq (bound : Option ℚ) (c : String) (b : ProcBehavior) :
    QaAgent.mkOutput bound c b = DevAgent.mkOutput bound c b := rfl

theorem qa_pythonTimeout_eq (tms : Option Nat) :
    QaAgent.pythonTimeout tms = DevAgent.pythonTimeout tms := rfl

theorem qa_execLoop_eq (bh : Nat → ProcBehavior) (bound : Option ℚ) :
    ∀ (cmds : List String) (k : Nat),
      QaAgent.execLoop bh bound cmds k = DevAgent.execLoop bh bound cmds k := by
  intro cmds
  induction cmds with
  | nil => intro k; rfl
  | cons c rest ih =>
    intro k
    rw [qa_execLoop_cons, DevAgent.execLoop_cons, qa_timedOut_eq,
      qa_mkOutput_eq, ih (k + 1)]

theorem qa_gate_result_eq (flag : Option String) (commands : List String)
    (resp : String) :
    (QaAgent.require_approval flag commands resp).result =
      (DevAgent.require_approval flag commands resp).result := by
  unfold QaAgent.require_approval DevAgent.require_approval
  by_cases h1 : flag = some "1"
  · simp [h1]
  · by_cases h2 : pyStripLower resp = "y" ∨ pyStripLower resp = "yes" <;>
      simp [h1, h2]

theorem qa_gate_reads_eq (flag : Option String) (commands : List String)
    (resp : String) :
    (QaAgent.require_approval flag commands resp).readsOperatorInput =
      (DevAgent.require_approval flag commands resp).readsOperatorInput := by
  unfold QaAgent.require_approval DevAgent.require_approval
  by_cases h1 : flag = some "1"
  · simp [h1]
  · by_cases h2 : pyStripLower resp = "y" ∨ pyStripLower resp = "yes" <;>
      simp [h1, h2]

theorem qa_call_agrees (cwd : String) (flag : Option String) (resp : String)
    (bh : Nat → ProcBehavior) (commands : List String) (tms : Option Nat) :
    (QaAgent.call cwd flag resp bh commands tms).result =
        (DevAgent.call cwd flag resp bh commands tms).result ∧
    (QaAgent.call cwd flag resp bh commands tms).spawned =
        (DevAgent.call cwd flag resp bh commands tms).spawned := by
  cases hg : (DevAgent.require_approval flag commands resp).result with
  | error e =>
    have hq := qa_gate_result_eq flag commands resp
    rw [hg] at hq
    rw [DevAgent.call_of_error cwd flag resp bh commands tms e hg,
      qa_call_of_error cwd flag resp bh commands tms e hq]
    exact ⟨rfl, rfl⟩
  | ok u =>
    cases u
    have hq := qa_gate_result_eq flag commands resp
    rw [hg] at hq
    rw [DevAgent.call_of_ok cwd flag resp bh commands tms hg,
      qa_call_of_ok cwd flag resp bh commands tms hq]
    constructor
    · simp [qa_execLoop_eq, qa_pythonTimeout_eq]
    · simp [qa_execLoop_eq, qa_pythonTimeout_eq]

/-! ### Claims -/

/-- C1 (counterexample): an executed command recorded as `timeout` *can*
carry an exit code.  With the bypass flag set, one command and a 100 ms
timeout, a hanging process is killed and its drained returncode (`-9`) is
recorded as the exit code of the `timeout` outcome, because
`exit_code=getattr(proc, "returncode", None)` is evaluated on the timeout
path as well. -/
theorem claimC1_counterexample :
    (DevAgent.call "/repo" (some "1") "" (fun _ => alwaysTimesOut)
        ["sleep 5"] (some 100)).result = Except.ok timeoutWitnessResult ∧
    (QaAgent.call "/repo" (some "1") "" (fun _ => alwaysTimesOut)
        ["sleep 5"] (some 100)).result = Except.ok timeoutWitnessResult ∧
    timeoutWitnessResult.output.get? 0 =
      some { command := "sleep 5", stdout := "", stderr := ""
             outcome := { type := "timeout", exit_code := some (-9) } } :=
  ⟨rfl, rfl, rfl⟩

/-- C1 (amended): for every executed command whose outcome is recorded as
`timeout`, the `ShellCommandOutput` carries as its exit code the returncode
the killed process reports after `proc.kill()` and the drain — which may be
present; the `timeout` tag and a present exit code can co-occur. -/
theorem claimC1_timeout_outcome_carries_returncode (cwd : String)
    (flag : Option String) (resp : String) (bh : Nat → ProcBehavior)
    (commands : List String) (tms : Option Nat) (r : ShellResult)
    (i : Nat) (o : ShellCommandOutput) :
    ((DevAgent.call cwd flag resp bh commands tms).result = Except.ok r →
      r.output.get? i = some o → o.outcome.type = "timeout" →
      o.outcome.exit_code = (bh i).returncode true) ∧
    ((QaAgent.call cwd flag resp bh commands tms).result = Except.ok r →
      r.output.get? i = some o → o.outcome.type = "timeout" →
      o.outcome.exit_code = (bh i).returncode true) := by
  have hdev : (DevAgent.call cwd flag resp bh commands tms).result =
      Except.ok r → r.output.get? i = some o →
      o.outcome.type = "timeout" →
      o.outcome.exit_code = (bh i).returncode true := by
    intro hr ho ht
    cases hg : (DevAgent.require_approval flag commands resp).result with
    | error e =>
      rw [DevAgent.call_of_error cwd flag resp bh commands tms e hg] at hr
      exact absurd hr (by simp)
    | ok u =>
      cases u
      rw [DevAgent.call_of_ok cwd flag resp bh commands tms hg] at hr
      simp only [Except.ok.injEq] at hr
      subst hr
      obtain ⟨c, hc, hoe⟩ := DevAgent.execLoop_get? bh
        (DevAgent.pythonTimeout tms) commands 0 i o ho
      rw [Nat.zero_add] at hoe
      subst hoe
      simp only [DevAgent.mkOutput] at ht ⊢
      cases htd : DevAgent.timedOut (DevAgent.pythonTimeout tms) (bh i)
      · rw [htd] at ht
        exact absurd ht (by decide)
      · rfl
  refine ⟨hdev, ?_⟩
  intro hr ho ht
  rw [(qa_call_agrees cwd flag resp bh commands tms).1] at hr
  exact hdev hr ho ht

/-- C1 (witness): the amended statement applied to the concrete timed-out
run of `["sleep 5"]`. -/
theorem claimC1_witness :
    ({ command := "sleep 5", stdout := "", stderr := ""
       outcome := { type := "timeout", exit_code := some (-9) } } :
        ShellCommandOutput).outcome.exit_code =
      ((fun _ => alwaysTimesOut : Nat → ProcBehavior) 0).returncode true :=
  (claimC1_timeout_outcome_carries_returncode "/repo" (some "1") ""
      (fun _ => alwaysTimesOut) ["sleep 5"] (some 100) timeoutWitnessResult 0
      { command := "sleep 5", stdout := "", stderr := ""
        outcome := { type := "timeout", exit_code := some (-9) } }).1
    rfl rfl rfl

/-- C2 (counterexample): with the bypass flag unset, the operator input
`" y "` is approved by both gates although it is not exactly `"y"` or
`"yes"` in any letter case — the code strips surrounding whitespace before
comparing. -/
theorem claimC2_counterexample :
    (DevAgent.require_approval none ["echo hi"] " y ").result =
        Except.ok () ∧
    (QaAgent.require_approval none ["echo hi"] " y ").result =
        Except.ok () ∧
    exactYesAnyCase " y " = false :=
  ⟨rfl, rfl, rfl⟩

/-- C2 (amended): with the bypass flag unset, `require_approval` returns
normally iff the operator's input, after stripping surrounding whitespace
and lowercasing, equals `"y"` or `"yes"`; every other input — including the
empty string — raises the rejection error. -/
theorem claimC2_approval_iff_strip_lower (commands : List String)
    (resp : String) :
    (((DevAgent.require_approval none commands resp).result =
        Except.ok ()) ↔
      (pyStripLower resp = "y" ∨ pyStripLower resp = "yes")) ∧
    (((DevAgent.require_approval none commands resp).result =
        Except.error "Shell command execution rejected by user.") ↔
      ¬(pyStripLower resp = "y" ∨ pyStripLower resp = "yes")) ∧
    (((QaAgent.require_approval none commands resp).result =
        Except.ok ()) ↔
      (pyStripLower resp = "y" ∨ pyStripLower resp = "yes")) ∧
    (((QaAgent.require_approval none commands resp).result =
        Except.error "Shell command execution rejected by user.") ↔
      ¬(pyStripLower resp = "y" ∨ pyStripLower resp = "yes")) := by
  by_cases h2 : pyStripLower resp = "y" ∨ pyStripLower resp = "yes" <;>
    simp [DevAgent.require_approval, QaAgent.require_approval, h2]

/-- C2 (witness): `"YES"` strips and lowercases to `"yes"`, so it is
approved. -/
theorem claimC2_witness :
    (DevAgent.require_approval none ["echo hi"] "YES").result =
      Except.ok () :=
  ((claimC2_approval_iff_strip_lower ["echo hi"] "YES").1).mpr (Or.inr rfl)

/-- C3: for every approved request, the returned output list has exactly one
entry per command up to and including the first command that timed out, and
none after it; with no timeout it has one entry per command. -/
theorem claimC3_output_count (cwd : String) (flag : Option String)
    (resp : String) (bh : Nat → ProcBehavior) (commands : List String)
    (tms : Option Nat) :
    (∀ r, (DevAgent.call cwd flag resp bh commands tms).result =
        Except.ok r →
      r.output.length =
        countUpToFirstTimeout bh (DevAgent.pythonTimeout tms) commands) ∧
    (∀ r, (QaAgent.call cwd flag resp bh commands tms).result =
        Except.ok r →
      r.output.length =
        countUpToFirstTimeout bh (QaAgent.pythonTimeout tms) commands) := by
  have hdev : ∀ r, (DevAgent.call cwd flag resp bh commands tms).result =
      Except.ok r →
      r.output.length =
        countUpToFirstTimeout bh (DevAgent.pythonTimeout tms) commands := by
    intro r hr
    cases hg : (DevAgent.require_approval flag commands resp).result with
    | error e =>
      rw [DevAgent.call_of_error cwd flag resp bh commands tms e hg] at hr
      exact absurd hr (by simp)
    | ok u =>
      cases u
      rw [DevAgent.call_of_ok cwd flag resp bh commands tms hg] at hr
      simp only [Except.ok.injEq] at hr
      subst hr
      unfold countUpToFirstTimeout
      exact DevAgent.execLoop_length bh (DevAgent.pythonTimeout tms)
        commands 0
  refine ⟨hdev, ?_⟩
  intro r hr
  rw [(qa_call_agrees cwd flag resp bh commands tms).1] at hr
  rw [qa_pythonTimeout_eq]
  exact hdev r hr

/-- C3 (witness): in the three-command scenario whose second command hangs,
exactly two outputs are returned. -/
theorem claimC3_witness :
    secondHangsResult.output.length =
      countUpToFirstTimeout secondHangs (DevAgent.pythonTimeout (some 100))
        ["echo one", "sleep 5", "echo three"] :=
  (claimC3_output_count "/repo" (some "1") "" secondHangs
    ["echo one", "sleep 5", "echo three"] (some 100)).1 secondHangsResult rfl

/-- C4: if the approval gate rejects the batch, `__call__` propagates the
rejection error, spawns no child process, and produces no
`ShellCommandOutput`. -/
theorem claimC4_rejection_spawns_nothing (cwd : String)
    (flag : Option String) (resp : String) (bh : Nat → ProcBehavior)
    (commands : List String) (tms : Option Nat) (e : String) :
    ((DevAgent.require_approval flag commands resp).result =
        Except.error e →
      DevAgent.call cwd flag resp bh commands tms =
        { gate := DevAgent.require_approval flag commands resp
          spawned := [], result := Except.error e }) ∧
    ((QaAgent.require_approval flag commands resp).result =
        Except.error e →
      QaAgent.call cwd flag resp bh commands tms =
        { gate := QaAgent.require_approval flag commands resp
          spawned := [], result := Except.error e }) :=
  ⟨DevAgent.call_of_error cwd flag resp bh commands tms e,
   qa_call_of_error cwd flag resp bh commands tms e⟩

/-- C4 (witness): a rejected request (`"n"`) spawns nothing. -/
theorem claimC4_witness :
    (DevAgent.call "/repo" none "n" (fun _ => cleanExit)
      ["echo hi"] none).spawned = [] := by
  rw [(claimC4_rejection_spawns_nothing "/repo" none "n" (fun _ => cleanExit)
    ["echo hi"] none "Shell command execution rejected by user.").1 rfl]

/-- C5: the wait on a command is bounded by `timeout_ms / 1000` seconds when
the request's timeout in milliseconds is positive, and is unbounded (the
bound passed to the wait is `None`, which never raises `TimeoutError`) when
the timeout is zero or absent; the executor runs the loop with exactly this
bound. -/
theorem claimC5_timeout_bound (tms : Option Nat) :
    (∀ m : Nat, tms = some m → 0 < m →
      DevAgent.pythonTimeout tms = some ((m : ℚ) / 1000) ∧
      QaAgent.pythonTimeout tms = some ((m : ℚ) / 1000)) ∧
    (tms = none ∨ tms = some 0 →
      DevAgent.pythonTimeout tms = none ∧
      QaAgent.pythonTimeout tms = none) ∧
    (∀ b : ProcBehavior, DevAgent.timedOut none b = false ∧
      QaAgent.timedOut none b = false) ∧
    (∀ (cwd : String) (bh : Nat → ProcBehavior) (commands : List String),
      (DevAgent.call cwd (some "1") "" bh commands tms).result =
        Except.ok
          { output := DevAgent.execLoop bh (DevAgent.pythonTimeout tms)
              commands 0
            provider_data_working_directory := cwd }) := by
  refine ⟨?_, ?_, ?_, ?_⟩
  · intro m hm hpos
    subst hm
    have hne : m ≠ 0 := Nat.pos_iff_ne_zero.mp hpos
    constructor <;> simp [DevAgent.pythonTimeout, QaAgent.pythonTimeout, hne]
  · rintro (rfl | rfl) <;>
      simp [DevAgent.pythonTimeout, QaAgent.pythonTimeout]
  · intro b
    exact ⟨rfl, rfl⟩
  · intro cwd bh commands
    rw [DevAgent.call_of_ok cwd (some "1") "" bh commands tms rfl]

/-- C5 (witness): a 100 ms timeout bounds the wait by `100 / 1000` seconds,
and an absent timeout yields no bound. -/
theorem claimC5_witness :
    DevAgent.pythonTimeout (some 100) = some ((100 : ℚ) / 1000) ∧
    DevAgent.pythonTimeout none = none :=
  ⟨((claimC5_timeout_bound (some 100)).1 100 rfl (by decide)).1,
   ((claimC5_timeout_bound none).2.1 (Or.inl rfl)).1⟩

/-- C6: `__call__` propagates an error exactly when the approval gate
rejects; for every approved request it returns an encoded `ShellResult`
(non-zero exit codes, stderr content and timeouts included), never an
error. -/
theorem claimC6_only_rejection_raises (cwd : String) (flag : Option String)
    (resp : String) (bh : Nat → ProcBehavior) (commands : List String)
    (tms : Option Nat) :
    ((DevAgent.require_approval flag commands resp).result = Except.ok () →
      (DevAgent.call cwd flag resp bh commands tms).result =
        Except.ok
          { output := DevAgent.execLoop bh (DevAgent.pythonTimeout tms)
              commands 0
            provider_data_working_directory := cwd }) ∧
    (∀ e, (DevAgent.call cwd flag resp bh commands tms).result =
        Except.error e ↔
      (DevAgent.require_approval flag commands resp).result =
        Except.error e) ∧
    ((QaAgent.require_approval flag commands resp).result = Except.ok () →
      (QaAgent.call cwd flag resp bh commands tms).result =
        Except.ok
          { output := QaAgent.execLoop bh (QaAgent.pythonTimeout tms)
              commands 0
            provider_data_working_directory := cwd }) ∧
    (∀ e, (QaAgent.call cwd flag resp bh commands tms).result =
        Except.error e ↔
      (QaAgent.require_approval flag commands resp).result =
        Except.error e) := by
  refine ⟨?_, ?_, ?_, ?_⟩
  · intro hg
    rw [DevAgent.call_of_ok cwd flag resp bh commands tms hg]
  · intro e
    constructor
    · intro he
      cases hg : (DevAgent.require_approval flag commands resp).result with
      | error e2 =>
        rw [DevAgent.call_of_error cwd flag resp bh commands tms e2 hg] at he
        simp only [Except.error.injEq] at he
        rw [he]
      | ok u =>
        cases u
        rw [DevAgent.call_of_ok cwd flag resp bh commands tms hg] at he
        exact absurd he (by simp)
    · intro hg
      rw [DevAgent.call_of_error cwd flag resp bh commands tms e hg]
  · intro hg
    rw [qa_call_of_ok cwd flag resp bh commands tms hg]
  · intro e
    constructor
    · intro he
      cases hg : (QaAgent.require_approval flag commands resp).result with
      | error e2 =>
        rw [qa_call_of_error cwd flag resp bh commands tms e2 hg] at he
        simp only [Except.error.injEq] at he
        rw [he]
      | ok u =>
        cases u
        rw [qa_call_of_ok cwd flag resp bh commands tms hg] at he
        exact absurd he (by simp)
    · intro hg
      rw [qa_call_of_error cwd flag resp bh commands tms e hg]

/-- C6 (witness): an approved one-command request returns an encoded
result. -/
theorem claimC6_witness :
    (DevAgent.call "/repo" (some "1") "" (fun _ => cleanExit)
        ["echo hi"] none).result =
      Except.ok
        { output := DevAgent.execLoop (fun _ => cleanExit)
            (DevAgent.pythonTimeout none) ["echo hi"] 0
          provider_data_working_directory := "/repo" } :=
  (claimC6_only_rejection_raises "/repo" (some "1") "" (fun _ => cleanExit)
    ["echo hi"] none).1 rfl

/-- C7: every returned output's `command` field equals, verbatim, the
command submitted at the corresponding position, and the outputs keep the
request's order: the output commands are exactly the first entries of the
request's command list. -/
theorem claimC7_commands_verbatim_in_order (cwd : String)
    (flag : Option String) (resp : String) (bh : Nat → ProcBehavior)
    (commands : List String) (tms : Option Nat) :
    (∀ r, (DevAgent.call cwd flag resp bh commands tms).result =
        Except.ok r →
      r.output.map (fun o => o.command) =
        commands.take r.output.length) ∧
    (∀ r, (QaAgent.call cwd flag resp bh commands tms).result =
        Except.ok r →
      r.output.map (fun o => o.command) =
        commands.take r.output.length) := by
  have hdev : ∀ r, (DevAgent.call cwd flag resp bh commands tms).result =
      Except.ok r →
      r.output.map (fun o => o.command) =
        commands.take r.output.length := by
    intro r hr
    cases hg : (DevAgent.require_approval flag commands resp).result with
    | error e =>
      rw [DevAgent.call_of_error cwd flag resp bh commands tms e hg] at hr
      exact absurd hr (by simp)
    | ok u =>
      cases u
      rw [DevAgent.call_of_ok cwd flag resp bh commands tms hg] at hr
      simp only [Except.ok.injEq] at hr
      subst hr
      exact DevAgent.execLoop_map_command bh (DevAgent.pythonTimeout tms)
        commands 0
  refine ⟨hdev, ?_⟩
  intro r hr
  rw [(qa_call_agrees cwd flag resp bh commands tms).1] at hr
  exact hdev r hr

/-- C7 (witness): the two outputs of the second-command-hangs scenario carry
the first two submitted commands, in order. -/
theorem claimC7_witness :
    secondHangsResult.output.map (fun o => o.command) =
      ["echo one", "sleep 5", "echo three"].take
        secondHangsResult.output.length :=
  (claimC7_commands_verbatim_in_order "/repo" (some "1") "" secondHangs
    ["echo one", "sleep 5", "echo three"] (some 100)).1 secondHangsResult rfl

/-- C8: when the bypass environment flag holds the literal `"1"`, both
gates return immediately for every command list: nothing is printed and
`input()` is never consulted. -/
theorem claimC8_bypass_returns_immediately (commands : List String)
    (resp : String) :
    DevAgent.require_approval (some "1") commands resp =
      { printed := [], readsOperatorInput := false,
        result := Except.ok () } ∧
    QaAgent.require_approval (some "1") commands resp =
      { printed := [], readsOperatorInput := false,
        result := Except.ok () } :=
  ⟨rfl, rfl⟩

/-- C9: the two `ShellExecutor`s are behaviourally equivalent: on the same
working directory, environment flag, operator response, process behaviours,
commands and timeout, they return the same result (or the same error), spawn
the same processes, and their gates decide and block identically (only the
prompt wording differs). -/
theorem claimC9_executors_equivalent (cwd : String) (flag : Option String)
    (resp : String) (bh : Nat → ProcBehavior) (commands : List String)
    (tms : Option Nat) :
    (QaAgent.call cwd flag resp bh commands tms).result =
        (DevAgent.call cwd flag resp bh commands tms).result ∧
    (QaAgent.call cwd flag resp bh commands tms).spawned =
        (DevAgent.call cwd flag resp bh commands tms).spawned ∧
    (QaAgent.require_approval flag commands resp).result =
        (DevAgent.require_approval flag commands resp).result ∧
    (QaAgent.require_approval flag commands resp).readsOperatorInput =
        (DevAgent.require_approval flag commands resp).readsOperatorInput :=
  ⟨(qa_call_agrees cwd flag resp bh commands tms).1,
   (qa_call_agrees cwd flag resp bh commands tms).2,
   qa_gate_result_eq flag commands resp,
   qa_gate_reads_eq flag commands resp⟩

/-- C10 (counterexample): with the bypass flag unset and an empty command
list, the operator input `" y "` — which is neither `"y"` nor `"yes"` — is
approved rather than rejected, because the gate strips whitespace first. -/
theorem claimC10_counterexample :
    (DevAgent.require_approval none [] " y ").result = Except.ok () ∧
    (QaAgent.require_approval none [] " y ").result = Except.ok () ∧
    (" y " : String) ≠ "y" ∧ (" y " : String) ≠ "yes" :=
  ⟨rfl, rfl, by decide, by decide⟩

/-- C10 (amended): with the bypass flag unset, both gates print the prompt
header and block on operator input even for the empty command list; approval
then requires an input that strips and lowercases to `"y"` or `"yes"`, and
any other input raises the rejection error. -/
theorem claimC10_empty_batch_prompts (resp : String) :
    (DevAgent.require_approval none [] resp).printed =
      ["\nShell command approval required:", "Proceed? [y/N] "] ∧
    (DevAgent.require_approval none [] resp).readsOperatorInput = true ∧
    (((DevAgent.require_approval none [] resp).result = Except.ok ()) ↔
      (pyStripLower resp = "y" ∨ pyStripLower resp = "yes")) ∧
    (QaAgent.require_approval none [] resp).printed =
      ["\n[QA] Shell command approval required:", "Proceed? [y/N] "] ∧
    (QaAgent.require_approval none [] resp).readsOperatorInput = true ∧
    (((QaAgent.require_approval none [] resp).result = Except.ok ()) ↔
      (pyStripLower resp = "y" ∨ pyStripLower resp = "yes")) := by
  by_cases h2 : pyStripLower resp = "y" ∨ pyStripLower resp = "yes" <;>
    simp [DevAgent.require_approval, QaAgent.require_approval, h2]

/-- C10 (witness): the amended statement applied to input `"n"`. -/
theorem claimC10_witness :
    (DevAgent.require_approval none [] "n").readsOperatorInput = true :=
  (claimC10_empty_batch_prompts "n").2.1
